import Mathlib

/-!
Shallow embedding of the forest-fire detection service
(`forest_fire_api`: `dashscope_client.py`, `image_processing.py`,
`routes.py`) together with theorems checking the natural-language
specification against the code.

Modelling conventions:
* Python floats are modelled as exact rationals (`ℚ`).
* Python `None`-able strings are modelled as `String` with `""` playing
  the role of the falsy values `None`/`""` (Python truthiness of `str`).
* JSON payloads are an inductive `Json` type; Python exceptions inside a
  `try` block are modelled with `Except Unit`.
* Byte strings are `List ℕ`; decoded images are rectangular pixel grids
  `List (List (ℕ × ℕ × ℕ))` in RGB order.
* Network and filesystem effects are made explicit: functions return the
  list of effects they perform, and the outcome of the external HTTP call
  is an oracle argument (`NetOutcome`).
-/

namespace ForestFire

/-! ## Python string primitives (ASCII model) -/

/-- Characters matched by Python `str.split()` / `str.strip()` / regex `\s`
(ASCII fragment; exotic Unicode whitespace is outside the model). -/
def pyIsSpaceChar (c : Char) : Bool :=
  c == ' ' || c == '\t' || c == '\n' || c == '\r' || c == '\x0b' || c == '\x0c'

/-- Python `str.lower` on ASCII letters. -/
def toLowerCh (c : Char) : Char :=
  if 'A' ≤ c ∧ c ≤ 'Z' then Char.ofNat (c.toNat + 32) else c

/-- Python `str.lower`. -/
def pyLower (s : String) : String :=
  String.mk (s.data.map toLowerCh)

/-- Drop matching characters from both ends of a character list. -/
def dropEnds (f : Char → Bool) (cs : List Char) : List Char :=
  ((cs.dropWhile f).reverse.dropWhile f).reverse

/-- Python `str.strip()` (no argument: strips whitespace). -/
def pyStrip (s : String) : String :=
  String.mk (dropEnds pyIsSpaceChar s.data)

/-- Does `hay` start with `pat` (exact characters)? -/
def startsWithCharL : List Char → List Char → Bool
  | [], _ => true
  | _ :: _, [] => false
  | p :: ps, c :: cs => p == c && startsWithCharL ps cs

/-- Does `pat` occur as a contiguous substring of the list? -/
def containsSubL (pat : List Char) : List Char → Bool
  | [] => startsWithCharL pat []
  | c :: rest => startsWithCharL pat (c :: rest) || containsSubL pat rest

/-- Python `sub in s` (substring containment). -/
def pyContains (s sub : String) : Bool :=
  containsSubL sub.data s.data

/-! ## Fire-detected inference (`dashscope_client._infer_fire_detection`) -/

/-- The optional context dictionary passed to the DashScope client
(`{"filename": ..., "local_probability": ...}`); `Option Ctx = none`
models an absent (or empty, hence falsy) context dict. -/
structure Ctx where
  filename : Option String
  localProbability : Option ℚ
deriving DecidableEq

/-- `float(context.get("local_probability", 0.0)) if context else 0.0`. -/
def localProbGetD (context : Option Ctx) : ℚ :=
  match context with
  | none => 0
  | some c => c.localProbability.getD 0

/-- The nine fixed negative phrases of `_infer_fire_detection`. -/
def negativeTokens : List String :=
  ["no fire", "no visible fire", "absence of fire", "unlikely", "not detected",
   "no smoke", "no flames", "no sign of fire", "no obvious fire"]

/-- The six fixed affirmative tokens of `_infer_fire_detection`. -/
def affirmativeTokens : List String :=
  ["fire", "flame", "smoke", "burn", "blaze", "ignition"]

/-- `DashScopeClient._infer_fire_detection(summary, context, confidence)`. -/
def inferFireDetection (summary : String) (context : Option Ctx)
    (confidence : Option ℚ) : Bool :=
  if summary = "" then
    decide ((0.5 : ℚ) ≤ confidence.getD 0) ||
      (match context with
        | some c => decide ((0.5 : ℚ) ≤ c.localProbability.getD 0)
        | none => false)
  else
    let text := pyLower summary
    if negativeTokens.any (fun t => pyContains text t) then false
    else if affirmativeTokens.any (fun t => pyContains text t) then
      if affirmativeTokens.any (fun t => pyContains text ("no " ++ t)) then false
      else true
    else
      match confidence with
      | some c => decide ((0.5 : ℚ) ≤ c)
      | none =>
        match context with
        | some c => decide ((0.5 : ℚ) ≤ c.localProbability.getD 0)
        | none => false

/-- Reference precedence of claim C1, written from the specification text:
(a) empty summary → confidence≥0.5 when known, else local-probability≥0.5
when known, else false; (b) negative phrase → false; (c) affirmative token →
true unless a literal `no <token>` occurs; (d) known confidence → ≥0.5;
(e) known local probability → ≥0.5; (f) false. -/
def specFireInference (summary : String) (confidence : Option ℚ)
    (localProb : Option ℚ) : Bool :=
  if summary = "" then
    match confidence with
    | some c => decide ((0.5 : ℚ) ≤ c)
    | none =>
      match localProb with
      | some p => decide ((0.5 : ℚ) ≤ p)
      | none => false
  else
    let text := pyLower summary
    if negativeTokens.any (fun t => pyContains text t) then false
    else if affirmativeTokens.any (fun t => pyContains text t) then
      if affirmativeTokens.any (fun t => pyContains text ("no " ++ t)) then false
      else true
    else
      match confidence with
      | some c => decide ((0.5 : ℚ) ≤ c)
      | none =>
        match localProb with
        | some p => decide ((0.5 : ℚ) ≤ p)
        | none => false

/-- The local-probability view of the context dictionary: `some` exactly
when a context dict is present, with the probability defaulted as by
`context.get("local_probability", 0.0)`. -/
def localProbView (context : Option Ctx) : Option ℚ :=
  context.map (fun c => c.localProbability.getD 0)

/-! ## Confidence extraction (`dashscope_client._extract_confidence`)

The regex `(confidence|probability|likelihood)\s*[:=]\s*(\d+(?:\.\d+)?)%?`
with `re.IGNORECASE` is embedded as an explicit leftmost scan. The three
alternatives begin with distinct letters and every quantifier of the
pattern matches a maximal run followed by a mandatory distinct character,
so the regex engine's match at a given start position is deterministic. -/

/-- Case-insensitive check that `cs` starts with the (lowercase) keyword. -/
def ciStartsWith : List Char → List Char → Bool
  | [], _ => true
  | _ :: _, [] => false
  | p :: ps, c :: cs => p == toLowerCh c && ciStartsWith ps cs

/-- Try the keyword alternation at the current position; on success return
the remaining characters. -/
def tryKeyword (cs : List Char) : Option (List Char) :=
  if ciStartsWith "confidence".data cs then some (cs.drop 10)
  else if ciStartsWith "probability".data cs then some (cs.drop 11)
  else if ciStartsWith "likelihood".data cs then some (cs.drop 10)
  else none

/-- Numeric value of a digit run. -/
def digitsToNat (ds : List Char) : ℕ :=
  ds.foldl (fun a c => 10 * a + (c.toNat - 48)) 0

/-- Result of one successful regex match: the parsed number (group 2 fed to
`float`) and whether the whole match (group 0) ends in `%`. -/
structure ConfMatch where
  value : ℚ
  endsPercent : Bool
deriving DecidableEq

/-- Try the full pattern at the current position. -/
def confMatchAt (cs : List Char) : Option ConfMatch :=
  match tryKeyword cs with
  | none => none
  | some rest1 =>
    let rest2 := rest1.dropWhile pyIsSpaceChar
    match rest2 with
    | [] => none
    | c :: rest3 =>
      if c == ':' || c == '=' then
        let rest4 := rest3.dropWhile pyIsSpaceChar
        let ds := rest4.takeWhile Char.isDigit
        let rest5 := rest4.dropWhile Char.isDigit
        if ds.isEmpty then none
        else
          let fds :=
            match rest5 with
            | '.' :: r => r.takeWhile Char.isDigit
            | _ => []
          let rest6 :=
            match rest5 with
            | '.' :: r => if (r.takeWhile Char.isDigit).isEmpty then rest5
                          else r.dropWhile Char.isDigit
            | _ => rest5
          let pct := match rest6 with
            | '%' :: _ => true
            | _ => false
          some ⟨(digitsToNat ds : ℚ) + (digitsToNat fds : ℚ) / (10 ^ fds.length), pct⟩
      else none

/-- `re.search`: first position (leftmost) where the pattern matches. -/
def findConfMatch : List Char → Option ConfMatch
  | [] => none
  | c :: rest =>
    match confMatchAt (c :: rest) with
    | some m => some m
    | none => findConfMatch rest

/-- `DashScopeClient._extract_confidence(summary)`. -/
def extractConfidence (summary : String) : Option ℚ :=
  if summary = "" then none
  else
    match findConfMatch summary.data with
    | none => none
    | some m =>
      if m.endsPercent = true ∧ m.value > 1 then
        some (max 0 (min 100 m.value) / 100)
      else
        some (max 0 (min 1 m.value))

/-- Confidence extraction as worded by claim C2: the first matching
occurrence; if the matched literal ends in `%` and the number exceeds 1,
the number is divided by 100 and clamped to `[0,1]`, otherwise the raw
number is clamped to `[0,1]`; no occurrence (or empty text) gives none. -/
def specExtractConfidence (summary : String) : Option ℚ :=
  match findConfMatch summary.data with
  | none => none
  | some m =>
    if m.endsPercent = true ∧ m.value > 1 then
      some (max 0 (min 1 (m.value / 100)))
    else
      some (max 0 (min 1 m.value))

/-! ## JSON values and Python-style access

`Json` models the values produced by `response.json()` (Python
`json.loads`): JSON `null` becomes Python `None`, numbers become `int` or
`float`, objects become `dict` (string keys, duplicate keys resolved last
wins). -/

inductive Json where
  | null
  | bool (b : Bool)
  | int (n : ℤ)
  | float (q : ℚ)
  | str (s : String)
  | arr (xs : List Json)
  | obj (kvs : List (String × Json))

/-- Python `dict` lookup for a parsed JSON object (last duplicate wins). -/
def jlookup (kvs : List (String × Json)) (k : String) : Option Json :=
  (kvs.reverse.find? (fun kv => kv.1 == k)).map (fun kv => kv.2)

/-- Lookup on an object value; `none` when the value is not an object. -/
def jget (j : Json) (k : String) : Option Json :=
  match j with
  | .obj kvs => jlookup kvs k
  | _ => none

/-- Python truthiness of a decoded JSON value. -/
def pyTruthy : Json → Bool
  | .null => false
  | .bool b => b
  | .int n => n != 0
  | .float q => q != 0
  | .str s => s != ""
  | .arr xs => !xs.isEmpty
  | .obj kvs => !kvs.isEmpty

/-- Python `x.get(k, dflt)`: raises (`.error`) when `x` is not a dict. -/
def pyDictGet (j : Json) (k : String) (dflt : Json) : Except Unit Json :=
  match j with
  | .obj kvs => .ok ((jlookup kvs k).getD dflt)
  | _ => .error ()

/-- Python `x[0]`: first element of a list, first character of a string,
and an exception for every other (or empty) value. -/
def pySubscriptZero : Json → Except Unit Json
  | .arr (x :: _) => .ok x
  | .str s =>
    match s.data with
    | c :: _ => .ok (.str (String.mk [c]))
    | [] => .error ()
  | _ => .error ()

/-- Placeholder for Python `str(float)`: CPython prints the shortest
round-tripping decimal of the IEEE double; that rendering is abstracted
here (no claim inspects a stringified float). -/
def pyFloatRepr (q : ℚ) : String :=
  toString q

mutual

/-- Python `repr` of a decoded JSON value (string escaping elided). -/
def pyRepr : Json → String
  | .null => "None"
  | .bool true => "True"
  | .bool false => "False"
  | .int n => toString n
  | .float q => pyFloatRepr q
  | .str s => "'" ++ s ++ "'"
  | .arr xs => "[" ++ pyReprList xs ++ "]"
  | .obj kvs => "\x7b" ++ pyReprObj kvs ++ "\x7d"

/-- Comma-joined `repr` of list elements. -/
def pyReprList : List Json → String
  | [] => ""
  | [x] => pyRepr x
  | x :: xs => pyRepr x ++ ", " ++ pyReprList xs

/-- Comma-joined `repr` of dict entries. -/
def pyReprObj : List (String × Json) → String
  | [] => ""
  | [kv] => "'" ++ kv.1 ++ "': " ++ pyRepr kv.2
  | kv :: kvs => "'" ++ kv.1 ++ "': " ++ pyRepr kv.2 ++ ", " ++ pyReprObj kvs

end

/-- Python `str` of a decoded JSON value. -/
def pyStr (j : Json) : String :=
  match j with
  | .str s => s
  | _ => pyRepr j

/-- Is the value a dict (`isinstance(x, dict)`)? -/
def jsonIsObj : Json → Bool
  | .obj _ => true
  | _ => false

/-! ## Summary extraction (`dashscope_client._extract_summary`) -/

/-- Body of the `try` block of `_extract_summary`; `.error ()` stands for
any raised exception. -/
def extractSummaryBody (payload : Json) : Except Unit String := do
  let choices ← pyDictGet payload "choices" .null
  if pyTruthy choices = false then return ""
  let firstChoice ← pySubscriptZero choices
  let message ← pyDictGet firstChoice "message" (.obj [])
  let content ← pyDictGet message "content" .null
  match content with
  | .str s => return pyStrip s
  | .arr blocks =>
    let texts := blocks.filterMap (fun b =>
      match b with
      | .obj kvs =>
        match (jlookup kvs "type").getD .null with
        | .str t => if t == "text" then some ((jlookup kvs "text").getD (.str "")) else none
        | _ => none
      | _ => none)
    let stripped ← texts.mapM (fun t =>
      match t with
      | .str s => Except.ok (pyStrip s)
      | _ => Except.error ())
    let joined := "\n".intercalate (stripped.filter (fun s => s != ""))
    if joined != "" then return joined
    let fallback := "\n".intercalate
      (((blocks.filter (fun b => !jsonIsObj b)).map pyStr).filter (fun s => s != ""))
    return pyStrip fallback
  | _ => if pyTruthy content then return pyStr content else return ""

/-- `DashScopeClient._extract_summary(payload)`: total, every exception in
the body yields the empty string. -/
def extractSummary (payload : Json) : String :=
  match extractSummaryBody payload with
  | .ok s => s
  | .error _ => ""

/-! ## DashScope client (`dashscope_client.DashScopeClient`) -/

/-- The settings fields consumed by the client; `""` models an unset
(`None`/empty, hence falsy) string. -/
structure Settings where
  apiKey : String
  endpoint : String
  model : String
  forceMock : Bool
  analysisPrompt : String
deriving DecidableEq

/-- The error taxonomy of `exceptions.py` (message carried; structured
`details` payloads are not inspected by any claim and are elided). -/
inductive ApiError where
  | configurationError (msg : String)
  | externalServiceError (msg : String)
  | validationError (msg : String)
  | imageProcessingError (msg : String)
deriving DecidableEq

/-- Observable side effects of the pipeline. -/
inductive Effect where
  | httpPost
  | readFile (name : String)
  | analyzeCall (name : String)
deriving DecidableEq

/-- Oracle for the outcome of `session.post`: a transport exception, or a
response with status, text body, and the result of `.json()` (`none` when
the body is not valid JSON). -/
inductive NetOutcome where
  | exn
  | response (status : ℕ) (text : String) (body : Option Json)

/-- Structured result (`DashScopeResult`). -/
structure DashScopeResult where
  summary : String
  fire_detected : Bool
  confidence : Option ℚ
  raw_response : Json

/-- Round half to even, as used by float formatting with `.1f`. -/
def roundHalfEven (q : ℚ) : ℤ :=
  let f := ⌊q⌋
  let r := q - f
  if r < 1 / 2 then f
  else if 1 / 2 < r then f + 1
  else if f % 2 = 0 then f else f + 1

/-- Python `"{0:.1f}".format(x)` (model: rounds the exact rational; CPython
rounds the IEEE double, which agrees on the inputs at stake). -/
def formatFix1 (q : ℚ) : String :=
  let n := (roundHalfEven (10 * |q|)).toNat
  let body := toString (n / 10) ++ "." ++ toString (n % 10)
  if q < 0 then "-" ++ body else body

/-- The mock summary text for a local probability `p`. -/
def mockSummaryText (p : ℚ) : String :=
  "[Mock] Local heuristic indicates a " ++ formatFix1 (p * 100) ++
    "% probability of visible fire or smoke. No external analysis was performed."

/-- `DashScopeClient._mock_response(context)`. -/
def mockResponse (context : Option Ctx) : DashScopeResult :=
  let localProbability := localProbGetD context
  let fire := decide ((0.5 : ℚ) ≤ localProbability)
  { summary := mockSummaryText localProbability
    fire_detected := fire
    confidence := if fire then some localProbability else none
    raw_response := Json.obj
      [("mock", Json.bool true),
       ("local_probability", Json.float localProbability),
       ("note", Json.str "DashScope mock mode is enabled (no API key configured).")] }

/-- `DashScopeClient.analyze_image`. The base64 data URL and the message
payload construction do not influence the parsed verdict and are not
re-inspected by the model; the HTTP call's outcome is the `net` oracle.
Returns the result together with the performed effects. -/
def analyzeImage (st : Settings) (_imageBytes : List ℕ) (_imageFormat : String)
    (_requestId : String) (context : Option Ctx) (net : NetOutcome) :
    Except ApiError DashScopeResult × List Effect :=
  if st.apiKey = "" ∧ st.forceMock = false then
    (.error (.configurationError
      "DashScope API key is not configured. Set DASHSCOPE_API_KEY or enable mock mode."), [])
  else if st.forceMock = true ∨ st.apiKey = "" then
    (.ok (mockResponse context), [])
  else
    match net with
    | .exn =>
      (.error (.externalServiceError "Failed to connect to DashScope service."), [.httpPost])
    | .response status _text body =>
      if status ≥ 400 then
        (.error (.externalServiceError
          ("DashScope API returned HTTP " ++ toString status ++ ".")), [.httpPost])
      else
        match body with
        | none =>
          (.error (.externalServiceError "DashScope response parsing failed."), [.httpPost])
        | some payload =>
          let summary := extractSummary payload
          let confidence := extractConfidence summary
          let fire := inferFireDetection summary context confidence
          (.ok { summary := if summary = "" then
                   "DashScope analysis completed without textual summary."
                 else summary
                 fire_detected := fire
                 confidence := confidence
                 raw_response := payload }, [.httpPost])

/-! ## Image heuristics (`image_processing.py`)

Decoded RGB images are rectangular grids of `(r, g, b)` byte triples. The
`ndim != 3 or shape[2] != 3` early-outs of the source have no counterpart:
the grid type is 3-channel by construction, matching claim C5's scope
("every 3-channel RGB image"). OpenCV's 8-bit HSV conversion is modelled
with exact rational saturation/hue (OpenCV additionally rounds each channel
to the nearest byte), and `np.std(...) < 18` is embedded as the equivalent
exact comparison `variance < 18²`. -/

/-- One RGB pixel. -/
abbrev Pixel := ℕ × ℕ × ℕ

/-- A decoded image as a list of rows. -/
abbrev Grid := List (List Pixel)

/-- `array.shape[0]`. -/
def gridH (g : Grid) : ℕ := g.length

/-- `array.shape[1]` (row length; rows are equal-length for decoded images). -/
def gridW (g : Grid) : ℕ :=
  match g with
  | [] => 0
  | r :: _ => r.length

/-- Rectangularity of a grid (what `np.ndarray` gives for free). -/
def Rectangular (g : Grid) : Prop :=
  ∀ r ∈ g, r.length = gridW g

/-- NumPy strided slicing `xs[::f]`: every `f`-th element from index 0. -/
def everyNth (f : ℕ) : List α → List α
  | [] => []
  | x :: xs => x :: everyNth f (xs.drop (f - 1))
termination_by l => l.length
decreasing_by simp only [List.length_drop, List.length_cons]; omega

/-- Stride sampling of `detect_thermal`: applied only when either
dimension exceeds `limit`, with factor `max(h // limit, w // limit, 1)`. -/
def sampleGrid (limit : ℕ) (g : Grid) : Grid :=
  if gridH g > limit ∨ gridW g > limit then
    let f := max (gridH g / limit) (max (gridW g / limit) 1)
    (everyNth f g).map (everyNth f)
  else g

/-- All pixels of a grid (`array.reshape(-1, 3)`). -/
def pixels (g : Grid) : List Pixel := g.flatten

/-- Value channel of 8-bit HSV: `V = max(r, g, b)`. -/
def valOf (px : Pixel) : ℕ := max px.1 (max px.2.1 px.2.2)

/-- Saturation channel of 8-bit HSV on the 0–255 scale:
`S = 255 * (V - min) / V` (0 when `V = 0`). -/
def satOf (px : Pixel) : ℚ :=
  let v := valOf px
  let m := min px.1 (min px.2.1 px.2.2)
  if v = 0 then 0 else 255 * ((v : ℚ) - m) / v

/-- Hue channel of 8-bit HSV on the 0–179 scale (exact rational model). -/
def hueOf (px : Pixel) : ℚ :=
  let r := px.1
  let g := px.2.1
  let b := px.2.2
  let v := valOf px
  let m := min r (min g b)
  if v = m then 0
  else
    let d : ℚ := (v : ℚ) - m
    let h0 : ℚ :=
      if v = r then 30 * ((g : ℚ) - b) / d
      else if v = g then 60 + 30 * ((b : ℚ) - r) / d
      else 120 + 30 * ((r : ℚ) - g) / d
    if h0 < 0 then h0 + 180 else h0

/-- `np.mean` of the saturation channel. -/
def satMean (ps : List Pixel) : ℚ :=
  (ps.map satOf).sum / ps.length

/-- `np.mean` of the value channel. -/
def valMean (ps : List Pixel) : ℚ :=
  ((ps.map (fun px => (valOf px : ℚ))).sum) / ps.length

/-- Population variance of the value channel (`np.std` squared). -/
def valVariance (ps : List Pixel) : ℚ :=
  (ps.map (fun px => ((valOf px : ℚ)) ^ 2)).sum / ps.length - valMean ps ^ 2

/-- `len(np.unique(flattened, axis=0)) / flattened.shape[0]`. -/
def uniqueColorFrac (ps : List Pixel) : ℚ :=
  (ps.dedup.length : ℚ) / ps.length

/-- `image_processing.detect_thermal` on a 3-channel grid. -/
def detectThermal (g : Grid) : Bool :=
  let ps := pixels (sampleGrid 512 g)
  decide (satMean ps < 25) || decide (valVariance ps < 18 ^ 2) ||
    decide (uniqueColorFrac ps < 8 / 100)

/-- `cv2.inRange` mask of `estimate_fire_probability`:
hue in `[0,15] ∪ [160,179]`, saturation ≥ 70, value in `[80,255]`. -/
def maskRed (px : Pixel) : Bool :=
  decide ((0 ≤ hueOf px ∧ hueOf px ≤ 15) ∨ (160 ≤ hueOf px ∧ hueOf px ≤ 179)) &&
    decide (70 ≤ satOf px ∧ satOf px ≤ 255) &&
    decide (80 ≤ valOf px ∧ valOf px ≤ 255)

/-- `image_processing.estimate_fire_probability` on a 3-channel grid. -/
def estimateFireProbability (g : Grid) : ℚ :=
  let ps := pixels (sampleGrid 640 g)
  let n := ps.length
  let redFrac : ℚ := ((ps.filter maskRed).length : ℚ) / (if n = 0 then 1 else (n : ℚ))
  let brightness : ℚ := valMean ps / 255
  max 0 (min 1 (0.65 * redFrac + 0.35 * brightness))

/-! ## Filename sanitisation (`werkzeug.utils.secure_filename`)

Embedded from the library's behaviour on POSIX: NFKD-normalise and drop
non-ASCII characters (identity on ASCII input, modelled as a plain ASCII
filter), replace `os.sep` (`/`) by a space, join the whitespace-split
words with `_`, delete every character outside `[A-Za-z0-9_.-]`, and strip
leading/trailing `.`/`_`. -/

/-- Characters kept by `secure_filename`'s strip regex. -/
def isSecureChar (c : Char) : Bool :=
  decide (('A' ≤ c ∧ c ≤ 'Z') ∨ ('a' ≤ c ∧ c ≤ 'z') ∨ ('0' ≤ c ∧ c ≤ '9')) ||
    c == '_' || c == '.' || c == '-'

/-- Python `str.split()` (split on whitespace runs, dropping empties). -/
def pySplitWsAux : List Char → List Char → List (List Char)
  | [], acc => if acc.isEmpty then [] else [acc.reverse]
  | c :: rest, acc =>
    if pyIsSpaceChar c then
      if acc.isEmpty then pySplitWsAux rest []
      else acc.reverse :: pySplitWsAux rest []
    else pySplitWsAux rest (c :: acc)

/-- Join words with `_` (`"_".join(...)`). -/
def joinUnderscore : List (List Char) → List Char
  | [] => []
  | [w] => w
  | w :: ws => w ++ '_' :: joinUnderscore ws

/-- `werkzeug.utils.secure_filename` (POSIX, ASCII model). -/
def pySecureFilename (s : String) : String :=
  let ascii := s.data.filter (fun c => c.toNat < 128)
  let repl := ascii.map (fun c => if c = '/' then ' ' else c)
  let joined := joinUnderscore (pySplitWsAux repl [])
  let kept := joined.filter isSecureChar
  String.mk (dropEnds (fun c => c == '.' || c == '_') kept)

/-! ## Image intake (`image_processing.prepare_image`) -/

/-- An uploaded file as seen by the route: declared filename and MIME type
(`""` models absent values), raw bytes, and the decode oracle standing in
for `PIL.Image.open` (`none` = undecodable bytes; the string is
`image.format`, `""` when PIL reports none). -/
structure FileInput where
  filename : String
  mimetype : String
  content : List ℕ
  decoded : Option (Grid × String)

/-- The validated and decoded upload (`PreparedImage`). -/
structure PreparedImage where
  filename : String
  contentType : String
  imageFormat : String
  width : ℕ
  height : ℕ
  grid : Grid
  rawBytes : List ℕ
  isThermal : Bool
  fireProbability : ℚ

/-- Insertion sort of strings, modelling Python `sorted`. -/
def insertSorted (s : String) : List String → List String
  | [] => [s]
  | x :: xs => if s ≤ x then s :: x :: xs else x :: insertSorted s xs

/-- Python `sorted` on strings. -/
def sortStrings (l : List String) : List String :=
  l.foldr insertSorted []

/-- Python `content_type.split("/")[-1]`. -/
def lastSlashComponent (s : String) : String :=
  (s.splitOn "/").getLastD ""

/-- `image_processing.prepare_image(file_storage, allowed_mime_types,
max_content_length)`, returning the performed effects (the
`file_storage.read()` call). The in-memory read itself is modelled as
infallible, so the `ImageProcessingError` wrapper around a failing read has
no counterpart here. -/
def prepareImage (allowed : List String) (maxLen : ℕ) (f : FileInput) :
    Except ApiError PreparedImage × List Effect :=
  let filename := pySecureFilename (if f.filename = "" then "image.jpg" else f.filename)
  if filename = "" then
    (.error (.validationError "Uploaded file must include a valid filename."), [])
  else
    let contentType := pyLower f.mimetype
    if contentType ≠ "" ∧ contentType ∉ allowed then
      (.error (.validationError
        ("Unsupported file type '" ++ contentType ++ "'. Allowed types: " ++
          ", ".intercalate (sortStrings allowed) ++ ".")), [])
    else
      let effs := [Effect.readFile f.filename]
      if f.content.isEmpty then
        (.error (.validationError ("Uploaded image '" ++ filename ++ "' is empty.")), effs)
      else if f.content.length > maxLen then
        (.error (.validationError
          ("Uploaded image '" ++ filename ++ "' exceeds the maximum allowed size of " ++
            toString maxLen ++ " bytes.")), effs)
      else
        match f.decoded with
        | none =>
          (.error (.imageProcessingError
            ("Unable to decode image '" ++ filename ++
              "'. Please provide a valid image file.")), effs)
        | some (grid, fmtRaw) =>
          let imageFormat := pyLower (if fmtRaw ≠ "" then fmtRaw
            else if lastSlashComponent contentType ≠ "" then lastSlashComponent contentType
            else "jpeg")
          (.ok { filename := filename
                 contentType := if contentType ≠ "" then contentType
                                else "image/" ++ imageFormat
                 imageFormat := imageFormat
                 width := gridW grid
                 height := gridH grid
                 grid := grid
                 rawBytes := f.content
                 isThermal := detectThermal grid
                 fireProbability := estimateFireProbability grid }, effs)

/-! ## Orchestrator (`routes.ai_enhanced_fire_detect`) -/

/-- One entry of the `results` list. Fields absent from the thermal branch
of the source (`dashscope_model`, `raw_response`) are modelled as `none`;
the wall-clock `latency_ms` field is outside the embedding. -/
structure ResultEntry where
  filename : String
  width : ℕ
  height : ℕ
  fire_detected : Bool
  confidence : Option ℚ
  analysis_summary : String
  local_fire_probability : ℚ
  is_thermal : Bool
  source : String
  dashscope_model : Option String
  raw_response : Option Json

/-- One entry of the `annotated_images` list. The banner rendering and
base64 payload (`annotate_image` / `save_annotated_image`) are graphics
and are outside the embedding; the entry records which image was
annotated. -/
structure AnnotEntry where
  filename : String

/-- Configuration values read by the route (defaults already applied). -/
structure Config where
  maxImages : ℕ
  minImages : ℕ
  allowedMimeTypes : List String
  maxContentLength : ℕ
  dashscopeModel : Option String
  settings : Settings

/-- The loop body of the route for a single uploaded file: intake, thermal
short-circuit or DashScope analysis, and assembly of the two output
entries. -/
def processOne (cfg : Config) (requestId : String) (net : NetOutcome)
    (f : FileInput) : Except ApiError (ResultEntry × AnnotEntry) × List Effect :=
  let pr := prepareImage cfg.allowedMimeTypes cfg.maxContentLength f
  match pr.1 with
  | .error e => (.error e, pr.2)
  | .ok prep =>
    if prep.isThermal then
      let summary := "Thermal image detected and skipped from DashScope analysis."
      (.ok ({ filename := prep.filename
              width := prep.width
              height := prep.height
              fire_detected := false
              confidence := none
              analysis_summary := summary
              local_fire_probability := prep.fireProbability
              is_thermal := true
              source := "thermal-filter"
              dashscope_model := none
              raw_response := none },
            { filename := prep.filename }), pr.2)
    else
      let ctx : Ctx := { filename := some prep.filename
                         localProbability := some prep.fireProbability }
      let ana := analyzeImage cfg.settings prep.rawBytes prep.imageFormat requestId
        (some ctx) net
      match ana.1 with
      | .error e => (.error e, pr.2 ++ Effect.analyzeCall prep.filename :: ana.2)
      | .ok analysis =>
        (.ok ({ filename := prep.filename
                width := prep.width
                height := prep.height
                fire_detected := analysis.fire_detected
                confidence := analysis.confidence
                analysis_summary := analysis.summary
                local_fire_probability := prep.fireProbability
                is_thermal := false
                source := "dashscope"
                dashscope_model := cfg.dashscopeModel
                raw_response := some analysis.raw_response },
              { filename := prep.filename }),
          pr.2 ++ Effect.analyzeCall prep.filename :: ana.2)

/-- The per-image loop: sequential, fail-fast, index-driven network
oracle. -/
def routeLoop (cfg : Config) (requestId : String) (net : ℕ → NetOutcome) :
    List FileInput → ℕ →
    Except ApiError (List ResultEntry × List AnnotEntry) × List Effect
  | [], _ => (.ok ([], []), [])
  | f :: rest, i =>
    match processOne cfg requestId (net i) f with
    | (.error e, effs) => (.error e, effs)
    | (.ok (r, a), effs) =>
      match routeLoop cfg requestId net rest (i + 1) with
      | (.error e, effs2) => (.error e, effs ++ effs2)
      | (.ok (rs, ans), effs2) => (.ok (r :: rs, a :: ans), effs ++ effs2)

/-- The aggregated success payload (`status`, `request_id` and timing
fields are constant or wall-clock and elided). -/
structure RouteResponse where
  results : List ResultEntry
  annotatedImages : List AnnotEntry

/-- `routes.ai_enhanced_fire_detect`: count validation, then the
sequential per-image pipeline. -/
def route (cfg : Config) (requestId : String) (files : List FileInput)
    (net : ℕ → NetOutcome) : Except ApiError RouteResponse × List Effect :=
  if files.isEmpty then
    (.error (.validationError
      "At least one image file must be uploaded under the 'images' field."), [])
  else if files.length < cfg.minImages then
    (.error (.validationError
      ("At least " ++ toString cfg.minImages ++ " image(s) must be provided.")), [])
  else if files.length > cfg.maxImages then
    (.error (.validationError
      ("At most " ++ toString cfg.maxImages ++
        " image(s) can be processed per request.")), [])
  else
    match routeLoop cfg requestId net files 1 with
    | (.error e, effs) => (.error e, effs)
    | (.ok (rs, ans), effs) => (.ok { results := rs, annotatedImages := ans }, effs)

/-! ## Auxiliary definitions used by the verification statements -/

/-- Effects that amount to invoking the vision-model client or the
network. -/
def effectIsModelCall : Effect → Bool
  | .analyzeCall _ => true
  | .httpPost => true
  | _ => false

/-- Does the route outcome carry a `ValidationError`? -/
def resultIsValidationError : Except ApiError RouteResponse → Bool
  | .error (.validationError _) => true
  | _ => false

/-- A response payload whose first choice's message has the given
content. -/
def payloadWithContent (content : Json) : Json :=
  Json.obj [("choices", Json.arr [Json.obj [("message",
    Json.obj [("content", content)])]])]

/-- A text-typed content block. -/
def textBlock (s : String) : Json :=
  Json.obj [("type", Json.str "text"), ("text", Json.str s)]

/-- A fully desaturated grid: every pixel has equal channels. -/
def Desaturated (g : Grid) : Prop :=
  ∀ r ∈ g, ∀ px ∈ r, px.1 = px.2.1 ∧ px.2.1 = px.2.2

/-- Settings with a credential missing and mock mode not forced. -/
def stNoKey : Settings :=
  { apiKey := "", endpoint := "https://example.invalid/v1", model := "qwen-vl-max",
    forceMock := false, analysisPrompt := "prompt" }

/-- Settings with mock mode forced. -/
def stMock : Settings :=
  { apiKey := "", endpoint := "https://example.invalid/v1", model := "qwen-vl-max",
    forceMock := true, analysisPrompt := "prompt" }

/-- A concrete configuration used for concrete pipeline runs. -/
def cfgMock : Config :=
  { maxImages := 5, minImages := 1, allowedMimeTypes := ["image/jpeg"],
    maxContentLength := 1000000, dashscopeModel := some "qwen-vl-max",
    settings := stMock }

/-- A valid non-thermal upload whose declared filename contains a space. -/
def fileCE : FileInput :=
  { filename := "a b.jpg", mimetype := "image/jpeg", content := [0],
    decoded := some ([[(255, 0, 0), (0, 0, 60)]], "jpeg") }

/-- The successful response of the concrete run on `fileCE`. -/
def respCE : RouteResponse :=
  ((route cfgMock "rid" [fileCE] (fun _ => NetOutcome.exn)).1.toOption).getD
    { results := [], annotatedImages := [] }

/-- A valid thermal upload (1×1 black image). -/
def fileThermal : FileInput :=
  { filename := "t.jpg", mimetype := "image/jpeg", content := [1],
    decoded := some ([[(0, 0, 0)]], "jpeg") }

/-- The prepared form of `fileThermal`. -/
def prepThermal : PreparedImage :=
  { filename := "t.jpg", contentType := "image/jpeg", imageFormat := "jpeg",
    width := 1, height := 1, grid := [[(0, 0, 0)]], rawBytes := [1],
    isThermal := true, fireProbability := 0 }

/-- An upload that is never read in the count-bound witness. -/
def fileDummy : FileInput :=
  { filename := "x.jpg", mimetype := "", content := [], decoded := none }

/-! ## Theorems -/

/-- Clamping to `[0,100]` and then dividing by 100 is dividing by 100 and
clamping to `[0,1]`. -/
lemma clamp_div_hundred (v : ℚ) :
    max 0 (min 100 v) / 100 = max 0 (min 1 (v / 100)) := by
  simp only [max_def, min_def]
  split_ifs <;> first | rfl | linarith

/-- Claim C1: applied to an extracted summary, the confidence extracted
from that summary, and the optional local heuristic probability of the
context, `_infer_fire_detection` equals the exact reference precedence of
the specification (empty summary → confidence, else local probability,
else false; negative phrases; affirmative tokens with the `no <token>`
override; then confidence; then local probability; else false). The three
worked examples of the specification are included. -/
theorem claim1_fire_inference_matches_spec :
    (∀ (summary : String) (context : Option Ctx),
        inferFireDetection summary context (extractConfidence summary) =
          specFireInference summary (extractConfidence summary) (localProbView context))
    ∧ inferFireDetection "No fire detected in this scene" none none = false
    ∧ inferFireDetection "Visible flame and heavy smoke" none none = true
    ∧ inferFireDetection "" (some ⟨none, some (7 / 10)⟩) none = true := by
  refine ⟨?_, by decide, by decide, by with_unfolding_all rfl⟩
  intro summary context
  by_cases hs : summary = ""
  · subst hs
    have hc : extractConfidence "" = none := by with_unfolding_all rfl
    rw [hc]
    rcases context with _ | ⟨fn, lp⟩
    · with_unfolding_all rfl
    · rcases lp with _ | p <;> with_unfolding_all rfl
  · simp only [inferFireDetection, specFireInference, if_neg hs]
    rcases context with _ | ⟨fn, lp⟩ <;> rfl

/-- Claim C2: `_extract_confidence` equals the specified extraction (first
`confidence|probability|likelihood` `:`/`=` number match; percent matches
above 1 are divided by 100 and clamped to `[0,1]`; other matches are
clamped to `[0,1]`; no match or empty text gives none), including the
specification's worked examples. -/
theorem claim2_extract_confidence_matches_spec :
    (∀ s : String, extractConfidence s = specExtractConfidence s)
    ∧ extractConfidence "Fire confidence: 85%" = some (85 / 100)
    ∧ extractConfidence "probability=0.42" = some (42 / 100)
    ∧ extractConfidence "" = none
    ∧ (∀ s : String, findConfMatch s.data = none → extractConfidence s = none) := by
  refine ⟨?_, by with_unfolding_all rfl, by with_unfolding_all rfl,
    by with_unfolding_all rfl, ?_⟩
  · intro s
    by_cases hs : s = ""
    · subst hs; with_unfolding_all rfl
    · unfold extractConfidence specExtractConfidence
      rw [if_neg hs]
      rcases findConfMatch s.data with _ | m
      · rfl
      · dsimp only
        by_cases hcond : m.endsPercent = true ∧ m.value > 1
        · rw [if_pos hcond, if_pos hcond]
          exact congrArg some (clamp_div_hundred m.value)
        · rw [if_neg hcond, if_neg hcond]
  · intro s hm
    by_cases hs : s = ""
    · simp [extractConfidence, hs]
    · simp [extractConfidence, if_neg hs, hm]

/-- Claim C3: with no API credential configured and mock mode not forced,
`analyze_image` raises `ConfigurationError`, returns no mock or default
verdict, and performs no network I/O (empty effect trace). -/
theorem claim3_no_key_configuration_error (st : Settings) (img : List ℕ)
    (fmt rid : String) (context : Option Ctx) (net : NetOutcome)
    (hkey : st.apiKey = "") (hmock : st.forceMock = false) :
    analyzeImage st img fmt rid context net =
      (.error (.configurationError
        "DashScope API key is not configured. Set DASHSCOPE_API_KEY or enable mock mode."),
       []) := by
  simp [analyzeImage, hkey, hmock]

/-- Concrete instance of claim C3's theorem. -/
theorem claim3_witness :
    analyzeImage stNoKey [] "jpeg" "req" none NetOutcome.exn =
      (.error (.configurationError
        "DashScope API key is not configured. Set DASHSCOPE_API_KEY or enable mock mode."),
       []) :=
  claim3_no_key_configuration_error stNoKey [] "jpeg" "req" none NetOutcome.exn rfl rfl

/-- Claim C4: with mock mode active and a context carrying local
probability `p`, `analyze_image` performs no network I/O and returns the
deterministic mock verdict: `fire_detected = (p ≥ 0.5)`, confidence `p`
exactly when detected, the fixed summary embedding `p` as a one-decimal
percentage (containing "80.0%" when `p = 0.8`), and a raw response flagged
as mock echoing `p`. -/
theorem claim4_mock_mode_deterministic (st : Settings) (img : List ℕ)
    (fmt rid : String) (c : Ctx) (p : ℚ) (net : NetOutcome)
    (hmock : st.forceMock = true) (hp : c.localProbability = some p) :
    analyzeImage st img fmt rid (some c) net =
      (.ok { summary := mockSummaryText p
             fire_detected := decide ((0.5 : ℚ) ≤ p)
             confidence := if (0.5 : ℚ) ≤ p then some p else none
             raw_response := Json.obj
               [("mock", Json.bool true), ("local_probability", Json.float p),
                ("note", Json.str
                  "DashScope mock mode is enabled (no API key configured).")] }, [])
    ∧ (p = 0.8 → pyContains (mockSummaryText p) "80.0%" = true) := by
  constructor
  · simp [analyzeImage, hmock, mockResponse, localProbGetD, hp]
  · rintro rfl
    with_unfolding_all rfl

/-- Concrete instance of claim C4's theorem at `p = 0.8`. -/
theorem claim4_witness :
    analyzeImage stMock [] "jpeg" "req" (some ⟨none, some 0.8⟩) NetOutcome.exn =
      (.ok { summary := mockSummaryText 0.8
             fire_detected := decide ((0.5 : ℚ) ≤ (0.8 : ℚ))
             confidence := if (0.5 : ℚ) ≤ (0.8 : ℚ) then some 0.8 else none
             raw_response := Json.obj
               [("mock", Json.bool true), ("local_probability", Json.float 0.8),
                ("note", Json.str
                  "DashScope mock mode is enabled (no API key configured).")] }, [])
    ∧ ((0.8 : ℚ) = 0.8 → pyContains (mockSummaryText 0.8) "80.0%" = true) :=
  claim4_mock_mode_deterministic stMock [] "jpeg" "req" ⟨none, some 0.8⟩ 0.8
    NetOutcome.exn rfl rfl

/-- Claim C10: the affirmative-token check is plain substring containment
on the lowercased summary: any non-empty summary containing an affirmative
token (also embedded inside a longer word such as "campfire"), with no
negative phrase and no `no <token>` pattern, yields `fire_detected = true`
regardless of the confidence and of the local probability. -/
theorem claim10_affirmative_substring (summary : String) (context : Option Ctx)
    (confidence : Option ℚ)
    (hne : summary ≠ "")
    (hneg : ∀ t ∈ negativeTokens, pyContains (pyLower summary) t = false)
    (haff : ∃ t ∈ affirmativeTokens, pyContains (pyLower summary) t = true)
    (hno : ∀ t ∈ affirmativeTokens, pyContains (pyLower summary) ("no " ++ t) = false) :
    inferFireDetection summary context confidence = true := by
  simp only [inferFireDetection, if_neg hne]
  have h1 : negativeTokens.any (fun t => pyContains (pyLower summary) t) = false := by
    simp only [List.any_eq_false]
    intro t ht
    simp [hneg t ht]
  have h2 : affirmativeTokens.any (fun t => pyContains (pyLower summary) t) = true := by
    rcases haff with ⟨t, ht, hcon⟩
    exact List.any_eq_true.mpr ⟨t, ht, by simp [hcon]⟩
  have h3 : affirmativeTokens.any
      (fun t => pyContains (pyLower summary) ("no " ++ t)) = false := by
    simp only [List.any_eq_false]
    intro t ht
    simp [hno t ht]
  simp [h1, h2, h3]

/-- Concrete instance of claim C10's theorem: "campfire" embeds "fire" and
is reported as fire even with a zero confidence and local probability. -/
theorem claim10_witness :
    inferFireDetection "The campfire is out." (some ⟨none, some 0⟩) (some 0) = true :=
  claim10_affirmative_substring "The campfire is out." (some ⟨none, some 0⟩) (some 0)
    (by decide) (by decide) ⟨"fire", by decide, by decide⟩ (by decide)

/-- Strided sampling only keeps elements of the original list. -/
lemma mem_everyNth_aux {α : Type _} (f : ℕ) :
    ∀ (n : ℕ) (l : List α), l.length ≤ n → ∀ a ∈ everyNth f l, a ∈ l := by
  intro n
  induction n with
  | zero =>
    intro l hl a ha
    cases l with
    | nil => simp [everyNth] at ha
    | cons x xs => simp at hl
  | succ n ih =>
    intro l hl a ha
    cases l with
    | nil => simp [everyNth] at ha
    | cons x xs =>
      rw [everyNth] at ha
      rcases List.mem_cons.mp ha with rfl | h2
      · exact List.mem_cons_self _ _
      · have hlen : (xs.drop (f - 1)).length ≤ n := by
          simp only [List.length_drop]
          simp only [List.length_cons] at hl
          omega
        exact List.mem_cons_of_mem _
          (List.drop_subset _ _ (ih (xs.drop (f - 1)) hlen a h2))

/-- Strided sampling only keeps elements of the original list. -/
lemma mem_everyNth {α : Type _} {f : ℕ} {l : List α} {a : α}
    (h : a ∈ everyNth f l) : a ∈ l :=
  mem_everyNth_aux f l.length l le_rfl a h

/-- Every pixel of the sampled grid is a pixel of some original row. -/
lemma pixels_sampleGrid_sub (limit : ℕ) (g : Grid) :
    ∀ px ∈ pixels (sampleGrid limit g), ∃ r ∈ g, px ∈ r := by
  intro px hpx
  unfold sampleGrid at hpx
  split_ifs at hpx
  · rcases List.mem_flatten.mp hpx with ⟨row, hrow, hpxrow⟩
    rcases List.mem_map.mp hrow with ⟨r, hr, rfl⟩
    exact ⟨r, mem_everyNth hr, mem_everyNth hpxrow⟩
  · exact List.mem_flatten.mp hpx

/-- Equal-channel pixels have zero saturation. -/
lemma satOf_eq_zero {px : Pixel} (h : px.1 = px.2.1 ∧ px.2.1 = px.2.2) :
    satOf px = 0 := by
  rcases px with ⟨r, g, b⟩
  obtain ⟨h1, h2⟩ := h
  simp only at h1 h2
  subst h1
  subst h2
  simp [satOf, valOf, sub_self]

/-- Comparing an exact square root against 18 is comparing the variance
against `18²`. -/
lemma sqrt_lt_eighteen (x : ℚ) :
    Real.sqrt (x : ℝ) < 18 ↔ x < 18 ^ 2 := by
  rw [Real.sqrt_lt' (by norm_num : (0 : ℝ) < 18)]
  exact_mod_cast Iff.rfl

/-- Claim C5: on a (rectangular, non-degenerate) 3-channel RGB grid,
`detect_thermal` is true exactly when, on the possibly stride-sampled
pixel grid, the mean saturation is below 25, or the value-channel standard
deviation is below 18, or the distinct-colour fraction is below 0.08; and
a fully desaturated image is thermal regardless of its size. -/
theorem claim5_thermal_characterisation (g : Grid) (_hrect : Rectangular g)
    (_hh : 0 < gridH g) (_hw : 0 < gridW g) :
    (detectThermal g = true ↔
      satMean (pixels (sampleGrid 512 g)) < 25 ∨
      Real.sqrt ((valVariance (pixels (sampleGrid 512 g)) : ℚ) : ℝ) < 18 ∨
      uniqueColorFrac (pixels (sampleGrid 512 g)) < 8 / 100)
    ∧ (Desaturated g → detectThermal g = true) := by
  constructor
  · simp only [detectThermal, Bool.or_eq_true, decide_eq_true_eq,
      sqrt_lt_eighteen, or_assoc]
  · intro hdesat
    have hzero : ∀ px ∈ pixels (sampleGrid 512 g), satOf px = 0 := by
      intro px hpx
      rcases pixels_sampleGrid_sub 512 g px hpx with ⟨r, hr, hpxr⟩
      exact satOf_eq_zero (hdesat r hr px hpxr)
    have hsum : ((pixels (sampleGrid 512 g)).map satOf).sum = 0 := by
      apply List.sum_eq_zero
      intro x hx
      rcases List.mem_map.mp hx with ⟨px, hpx, rfl⟩
      exact hzero px hpx
    have hmean : satMean (pixels (sampleGrid 512 g)) = 0 := by
      unfold satMean
      rw [hsum]
      simp
    simp only [detectThermal, Bool.or_eq_true, decide_eq_true_eq]
    left
    rw [hmean]
    norm_num

/-- Concrete instance of claim C5's theorem on a desaturated 1×1 grid. -/
theorem claim5_witness :
    ((detectThermal [[(5, 5, 5)]] = true ↔
      satMean (pixels (sampleGrid 512 [[(5, 5, 5)]])) < 25 ∨
      Real.sqrt ((valVariance (pixels (sampleGrid 512 [[(5, 5, 5)]])) : ℚ) : ℝ) < 18 ∨
      uniqueColorFrac (pixels (sampleGrid 512 [[(5, 5, 5)]])) < 8 / 100)
    ∧ (Desaturated [[(5, 5, 5)]] → detectThermal [[(5, 5, 5)]] = true)) :=
  claim5_thermal_characterisation [[(5, 5, 5)]]
    (by unfold Rectangular; decide) (by decide) (by decide)

/-- Claim C8: summary extraction is total and never raises — the `try`
body's exceptions are caught and yield `""`. Plain-text content is
returned trimmed (for every string); a block list yields the
newline-joined text-typed blocks, falling back to the stringified
non-mapping entries; missing choices, a non-mapping payload, an
unsubscriptable choices value, falsy content, and a text block whose text
field is not a string (where CPython raises `TypeError` inside the `try`)
all yield a string, per the above. -/
theorem claim8_extract_summary_total :
    (∀ s : String, extractSummary (payloadWithContent (Json.str s)) = pyStrip s)
    ∧ extractSummary (payloadWithContent (Json.arr
        [textBlock "A ", Json.obj [("type", Json.str "image_url")], textBlock "B"]))
        = "A\nB"
    ∧ extractSummary (payloadWithContent (Json.arr
        [Json.int 1, Json.str "x", Json.obj []])) = "1\nx"
    ∧ extractSummary (Json.obj []) = ""
    ∧ extractSummary (Json.arr [Json.int 3]) = ""
    ∧ extractSummary (payloadWithContent (Json.int 7)) = "7"
    ∧ extractSummary (payloadWithContent (Json.bool false)) = ""
    ∧ extractSummary (payloadWithContent Json.null) = ""
    ∧ extractSummary (payloadWithContent (Json.arr
        [Json.obj [("type", Json.str "text"), ("text", Json.int 5)]])) = "" := by
  refine ⟨?_, by decide, by decide, by decide, by decide, by decide, by decide,
    by decide, by decide⟩
  intro s
  rfl

/-- Claim C9: a request whose image count is outside the configured
bounds is rejected with a `ValidationError` and with an empty effect
trace — no image bytes are read or decoded and no per-image work is
performed. -/
theorem claim9_count_bounds_rejected (cfg : Config) (rid : String)
    (files : List FileInput) (net : ℕ → NetOutcome)
    (h : files.length < cfg.minImages ∨ files.length > cfg.maxImages) :
    resultIsValidationError (route cfg rid files net).1 = true
    ∧ (route cfg rid files net).2 = [] := by
  unfold route
  split_ifs with h1 h2 h3
  · exact ⟨rfl, rfl⟩
  · exact ⟨rfl, rfl⟩
  · exact ⟨rfl, rfl⟩
  · exfalso
    rcases h with h | h
    · exact h2 h
    · exact h3 h

/-- Concrete instance of claim C9's theorem: six uploads against a
maximum of five. -/
theorem claim9_witness :
    resultIsValidationError (route cfgMock "req"
      [fileDummy, fileDummy, fileDummy, fileDummy, fileDummy, fileDummy]
      (fun _ => NetOutcome.exn)).1 = true
    ∧ (route cfgMock "req"
      [fileDummy, fileDummy, fileDummy, fileDummy, fileDummy, fileDummy]
      (fun _ => NetOutcome.exn)).2 = [] :=
  claim9_count_bounds_rejected cfgMock "req"
    [fileDummy, fileDummy, fileDummy, fileDummy, fileDummy, fileDummy]
    (fun _ => NetOutcome.exn) (Or.inr (by decide))

/-- Image intake never performs a network or model-call effect. -/
lemma prepare_effects_no_model (al : List String) (ml : ℕ) (f : FileInput) :
    ((prepareImage al ml f).2).any effectIsModelCall = false := by
  rcases f with ⟨fn, mt, ct, dec⟩
  rcases dec with _ | ⟨grid, fmt⟩ <;>
    (unfold prepareImage; dsimp only; split_ifs <;> rfl)

/-- Claim C6: an image classified as thermal never reaches the
vision-model client — the loop body substitutes the fixed synthetic result
(`fire_detected = false`, no confidence, source `thermal-filter`) and the
image still receives an annotated output entry; the effect trace contains
no model call and no network I/O. -/
theorem claim6_thermal_skips_client (cfg : Config) (rid : String)
    (net : NetOutcome) (f : FileInput) (prep : PreparedImage)
    (hprep : (prepareImage cfg.allowedMimeTypes cfg.maxContentLength f).1 = .ok prep)
    (hth : prep.isThermal = true) :
    processOne cfg rid net f =
      (.ok ({ filename := prep.filename
              width := prep.width
              height := prep.height
              fire_detected := false
              confidence := none
              analysis_summary :=
                "Thermal image detected and skipped from DashScope analysis."
              local_fire_probability := prep.fireProbability
              is_thermal := true
              source := "thermal-filter"
              dashscope_model := none
              raw_response := none },
            { filename := prep.filename }),
        (prepareImage cfg.allowedMimeTypes cfg.maxContentLength f).2)
    ∧ (processOne cfg rid net f).2.any effectIsModelCall = false := by
  have hpo : processOne cfg rid net f =
      (.ok ({ filename := prep.filename
              width := prep.width
              height := prep.height
              fire_detected := false
              confidence := none
              analysis_summary :=
                "Thermal image detected and skipped from DashScope analysis."
              local_fire_probability := prep.fireProbability
              is_thermal := true
              source := "thermal-filter"
              dashscope_model := none
              raw_response := none },
            { filename := prep.filename }),
        (prepareImage cfg.allowedMimeTypes cfg.maxContentLength f).2) := by
    simp only [processOne, hprep, hth, if_true]
  refine ⟨hpo, ?_⟩
  rw [hpo]
  exact prepare_effects_no_model _ _ _

/-- Concrete instance of claim C6's theorem on a 1×1 black (thermal)
upload. -/
theorem claim6_witness :
    processOne cfgMock "req" NetOutcome.exn fileThermal =
      (.ok ({ filename := prepThermal.filename
              width := prepThermal.width
              height := prepThermal.height
              fire_detected := false
              confidence := none
              analysis_summary :=
                "Thermal image detected and skipped from DashScope analysis."
              local_fire_probability := prepThermal.fireProbability
              is_thermal := true
              source := "thermal-filter"
              dashscope_model := none
              raw_response := none },
            { filename := prepThermal.filename }),
        (prepareImage cfgMock.allowedMimeTypes cfgMock.maxContentLength fileThermal).2)
    ∧ (processOne cfgMock "req" NetOutcome.exn fileThermal).2.any effectIsModelCall
      = false :=
  claim6_thermal_skips_client cfgMock "req" NetOutcome.exn fileThermal prepThermal
    (by with_unfolding_all rfl) rfl

/-- A successful intake records the sanitised declared filename. -/
lemma prepare_ok_filename {al : List String} {ml : ℕ} {f : FileInput}
    {prep : PreparedImage}
    (h : (prepareImage al ml f).1 = .ok prep) :
    prep.filename =
      pySecureFilename (if f.filename = "" then "image.jpg" else f.filename) := by
  rcases f with ⟨fn, mt, ct, dec⟩
  dsimp only at h ⊢
  rcases dec with _ | ⟨grid, fmt⟩ <;>
    (unfold prepareImage at h; dsimp only at h; split_ifs at h ⊢ <;>
      (injection h; subst prep; rfl))

/-- A successful loop-body run records the sanitised declared filename. -/
lemma processOne_ok_filename {cfg : Config} {rid : String} {net : NetOutcome}
    {f : FileInput} {r : ResultEntry} {a : AnnotEntry}
    (h : (processOne cfg rid net f).1 = .ok (r, a)) :
    r.filename =
      pySecureFilename (if f.filename = "" then "image.jpg" else f.filename) := by
  rcases hp : (prepareImage cfg.allowedMimeTypes cfg.maxContentLength f).1
    with e | prep
  · simp only [processOne, hp] at h
    exact Except.noConfusion h
  · simp only [processOne, hp] at h
    by_cases hth : prep.isThermal = true
    · simp only [hth, if_true] at h
      simp only [Except.ok.injEq, Prod.mk.injEq] at h
      obtain ⟨h1, h2⟩ := h
      rw [← h1]
      exact prepare_ok_filename hp
    · have hth2 : prep.isThermal = false := by
        revert hth
        cases prep.isThermal <;> simp
      simp only [hth2, Bool.false_eq_true, if_false] at h
      rcases ha : (analyzeImage cfg.settings prep.rawBytes prep.imageFormat rid
          (some { filename := some prep.filename
                  localProbability := some prep.fireProbability }) net).1
        with e2 | analysis
      · rw [ha] at h
        exact Except.noConfusion h
      · rw [ha] at h
        simp only [Except.ok.injEq, Prod.mk.injEq] at h
        obtain ⟨h1, h2⟩ := h
        rw [← h1]
        exact prepare_ok_filename hp

/-- A successful loop run yields one result per input, in order, named by
the sanitised declared filename. -/
lemma routeLoop_filenames (cfg : Config) (rid : String) (net : ℕ → NetOutcome) :
    ∀ (files : List FileInput) (i : ℕ) (rs : List ResultEntry)
      (ans : List AnnotEntry),
      (routeLoop cfg rid net files i).1 = .ok (rs, ans) →
      rs.map (fun r => r.filename) =
        files.map (fun f =>
          pySecureFilename (if f.filename = "" then "image.jpg" else f.filename)) := by
  intro files
  induction files with
  | nil =>
    intro i rs ans h
    simp only [routeLoop] at h
    injection h with h2
    injection h2 with h3 h4
    subst h3
    rfl
  | cons f rest ih =>
    intro i rs ans h
    unfold routeLoop at h
    rcases hpo : processOne cfg rid (net i) f with ⟨res, effs⟩
    rw [hpo] at h
    rcases res with e | ⟨r, a⟩
    · dsimp only at h
      injection h
    · rcases hrl : routeLoop cfg rid net rest (i + 1) with ⟨res2, effs2⟩
      rw [hrl] at h
      rcases res2 with e2 | ⟨rs2, ans2⟩
      · dsimp only at h
        injection h
      · dsimp only at h
        injection h with h2
        injection h2 with h3 h4
        subst h3
        have hr : r.filename =
            pySecureFilename (if f.filename = "" then "image.jpg" else f.filename) :=
          processOne_ok_filename (by rw [hpo])
        have hrest := ih (i + 1) rs2 ans2 (by rw [hrl])
        simp only [List.map]
        rw [hr, hrest]

/-- Claim C7 (corrected): a fully successful request returns one outcome
per input, in input order, and the `i`-th outcome's filename is the
*sanitised* declared filename of the `i`-th input — `secure_filename`
applied to the declared name (or to the default "image.jpg" when none was
declared) — which coincides with the declared filename only when that name
is already in sanitised form. -/
theorem claim7_order_and_sanitised_names (cfg : Config) (rid : String)
    (files : List FileInput) (net : ℕ → NetOutcome) (resp : RouteResponse)
    (h : (route cfg rid files net).1 = .ok resp) :
    resp.results.length = files.length
    ∧ resp.results.map (fun r => r.filename) =
        files.map (fun f =>
          pySecureFilename (if f.filename = "" then "image.jpg" else f.filename)) := by
  have hmap : resp.results.map (fun r => r.filename) =
      files.map (fun f =>
        pySecureFilename (if f.filename = "" then "image.jpg" else f.filename)) := by
    unfold route at h
    split_ifs at h
    rcases hrl : routeLoop cfg rid net files 1 with ⟨res, effs⟩
    rw [hrl] at h
    rcases res with e | ⟨rs, ans⟩
    · dsimp only at h
      injection h
    · dsimp only at h
      injection h with h2
      subst h2
      exact routeLoop_filenames cfg rid net files 1 rs ans (by rw [hrl])
  refine ⟨?_, hmap⟩
  have hlen := congrArg List.length hmap
  simpa using hlen

/-- Claim C7 as stated is false on the code: the upload declared
"a b.jpg" is valid, processes successfully (mock mode), and yields exactly
one outcome — but its filename is the sanitised "a_b.jpg", not the
declared "a b.jpg". -/
theorem claim7_counterexample :
    ((route cfgMock "rid" [fileCE] (fun _ => NetOutcome.exn)).1.toOption.map
      (fun resp => resp.results.map (fun r => r.filename))) = some ["a_b.jpg"]
    ∧ fileCE.filename = "a b.jpg"
    ∧ ("a_b.jpg" : String) ≠ "a b.jpg" :=
  ⟨by with_unfolding_all rfl, rfl, by decide⟩

/-- Concrete instance of claim C7's corrected theorem on the successful
run over `fileCE`. -/
theorem claim7_witness :
    respCE.results.length = [fileCE].length
    ∧ respCE.results.map (fun r => r.filename) =
        [fileCE].map (fun f =>
          pySecureFilename (if f.filename = "" then "image.jpg" else f.filename)) :=
  claim7_order_and_sanitised_names cfgMock "rid" [fileCE] (fun _ => NetOutcome.exn)
    respCE (by with_unfolding_all rfl)

end ForestFire
